import Mathlib

/-!
Shallow embedding of the SwingScanner core: the indicator calculator and
signal validator (`backend/backtest_engine.py`), the resilient historical
data fetcher (`backend/smart_api_client.py`), and the two batch
orchestration loops (`backend/main.py` and `app.py`).

Python floats are modelled as exact rationals, dates as integer day
numbers, and dynamic (dict/dataframe) failures as `Except String`.
-/

set_option autoImplicit false
set_option maxRecDepth 4000

namespace SwingScanner

instance {e a : Type} [DecidableEq e] [DecidableEq a] : DecidableEq (Except e a) := fun x y =>
  match x, y with
  | .error u, .error v =>
    if h : u = v then .isTrue (by rw [h]) else .isFalse (by intro hc; cases hc; exact h rfl)
  | .error _, .ok _ => .isFalse (by intro hc; cases hc)
  | .ok _, .error _ => .isFalse (by intro hc; cases hc)
  | .ok u, .ok v =>
    if h : u = v then .isTrue (by rw [h]) else .isFalse (by intro hc; cases hc; exact h rfl)

/-- A price bar as built by `fetch_historical_data` and consumed by the
engine.  `date` holds a day number; the `Except` wrapper models a dynamic
date-extraction failure of the dataframe column.  `ema9`/`ema20` are the
`EMA_9`/`EMA_20` columns, `none` until `calculate_indicators` has
annotated the series. -/
structure ABar where
  date : Except String Int
  openPrice : ℚ
  highPrice : ℚ
  lowPrice : ℚ
  close : ℚ
  volume : Int
  ema9 : Option ℚ
  ema20 : Option ℚ
  deriving Repr, DecidableEq

/-- One signal row from the upstream signal source, as read by
`validate_setup`.  Keys accessed with `row.get(key, default)` in the code
are `Option`s here; `date` holds the result of parsing the row's ISO date
to a day number (`pd.to_datetime(row['date']).date()`), a parse failure
being an uncaught exception modelled as `.error`. -/
structure Row where
  date : Except String Int
  is_stage2 : Bool
  ltp : ℚ
  stop_loss : Option ℚ
  next_target : Option ℚ
  close : Option ℚ
  is_mtf : Option Bool
  note : Option String
  deriving Repr, DecidableEq

/-- Rejection reasons produced by `validate_setup`.  The code carries the
spread formatted into the reason string; here the exact value is carried
instead. -/
inductive Reason where
  | insufficientData
  | dataOutdated
  | dateError (detail : String)
  | emaCrossBelow
  | priceBelowEmas
  | closeBelowFastEma
  | tooSqueezed (spread : ℚ)
  | overextended (spread : ℚ)
  | notStage2
  deriving Repr, DecidableEq

/-- The payload of an accepted verdict (the dict literal at the end of
`validate_setup`). -/
structure AcceptData where
  stop_loss : ℚ
  target : ℚ
  ltp : ℚ
  close : ℚ
  ema_9 : ℚ
  ema_20 : ℚ
  spread_pct : ℚ
  is_mtf : Bool
  is_stage2 : Bool
  note : String
  deriving Repr, DecidableEq

/-- The verdict returned by `validate_setup`: either a rejection with a
reason or an acceptance carrying trade parameters. -/
inductive Verdict where
  | reject (reason : Reason)
  | accept (d : AcceptData)
  deriving Repr, DecidableEq

/-! ### Indicator Calculator (`backtest_engine.calculate_indicators`) -/

/-- One step of the unadjusted EMA recurrence used by pandas
`ewm(span=s, adjust=False).mean()`. -/
def emaStep (alpha prev x : ℚ) : ℚ := alpha * x + (1 - alpha) * prev

/-- Tail of the unadjusted EMA recurrence, given the previous smoothed
value. -/
def emaFrom (alpha prev : ℚ) : List ℚ → List ℚ
  | [] => []
  | x :: xs => emaStep alpha prev x :: emaFrom alpha (emaStep alpha prev x) xs

/-- Unadjusted exponential moving average of a list:
`value[0] = x[0]`, `value[i] = alpha*x[i] + (1-alpha)*value[i-1]`. -/
def ema (alpha : ℚ) : List ℚ → List ℚ
  | [] => []
  | x :: xs => x :: emaFrom alpha x xs

/-- Smoothing factor for span 9 (`EMA_9`): 2/(span+1). -/
def alphaFast : ℚ := 2 / (9 + 1)

/-- Smoothing factor for span 20 (`EMA_20`): 2/(span+1). -/
def alphaSlow : ℚ := 2 / (20 + 1)

/-- Write a pair of indicator values onto a bar (column assignment). -/
def annotateBar (b : ABar) (e9 e20 : ℚ) : ABar :=
  { b with ema9 := some e9, ema20 := some e20 }

/-- Model of `calculate_indicators(df)`: returns the input unchanged when
it is missing or shorter than 20 bars, otherwise assigns the `EMA_9` and
`EMA_20` columns computed from the `close` column. -/
def calculate_indicators (df : Option (List ABar)) : Option (List ABar) :=
  match df with
  | none => none
  | some bars =>
    if bars.length < 20 then some bars
    else
      let closes := bars.map (fun b => b.close)
      some (List.zipWith (fun b p => annotateBar b p.1 p.2) bars
        ((ema alphaFast closes).zip (ema alphaSlow closes)))

/-! ### Signal Validator (`backtest_engine.validate_setup`) -/

/-- Result of the trigger-bar location step (the `try` block of
`validate_setup`): the bar was found, or the data is outdated, or a
dynamic error was raised (caught and turned into `DateError`). -/
inductive TrigResult where
  | outdated
  | found (b : ABar)
  deriving Repr, DecidableEq

/-- Locate the trigger bar: first bar whose date equals the signal date;
otherwise the last bar, accepted only when within 5 calendar days of the
signal date.  Extraction of the date column raises on any malformed
entry. -/
def locate_trigger (bars : List ABar) (signalDate : Int) :
    Except String TrigResult :=
  match bars.mapM (fun b => b.date) with
  | .error e => .error e
  | .ok dates =>
    match List.find? (fun p => p.2 == signalDate) (bars.zip dates) with
    | some p => .ok (.found p.1)
    | none =>
      match bars.getLast?, dates.getLast? with
      | some lb, some ld =>
        if (ld - signalDate).natAbs > 5 then .ok .outdated
        else .ok (.found lb)
      | _, _ => .error "single positional indexer is out-of-bounds"

/-- The rule-gate section of `validate_setup` (code after the trigger bar
is determined).  Reading a missing EMA column is an uncaught `KeyError`
(it sits outside the `try` block), modelled as `.error`. -/
def gates (row : Row) (trigger : ABar) : Except String Verdict :=
  match trigger.ema9, trigger.ema20 with
  | some e9, some e20 =>
    let cl := trigger.close
    if ¬ e9 > e20 then .ok (.reject .emaCrossBelow)
    else if ¬ (cl > e9 ∧ cl > e20) then .ok (.reject .priceBelowEmas)
    else if ¬ cl > e9 then .ok (.reject .closeBelowFastEma)
    else
      let spread := |e9 - e20| / e20 * 100
      if spread < 3 / 10 then .ok (.reject (.tooSqueezed spread))
      else if spread > 12 / 10 then .ok (.reject (.overextended spread))
      else if ¬ row.is_stage2 then .ok (.reject .notStage2)
      else .ok (.accept {
        stop_loss := row.stop_loss.getD 0
        target := row.next_target.getD 0
        ltp := row.ltp
        close := row.close.getD cl
        ema_9 := e9
        ema_20 := e20
        spread_pct := spread
        is_mtf := row.is_mtf.getD false
        is_stage2 := row.is_stage2
        note := row.note.getD "" })
  | _, _ => .error "KeyError: EMA_9"

/-- Model of `validate_setup(row, historical_df)`.  An `.error` result
models an exception escaping the function (caught only at the
orchestrator). -/
def validate_setup (row : Row) (hist : Option (List ABar)) :
    Except String Verdict :=
  match hist with
  | none => .ok (.reject .insufficientData)
  | some bars =>
    if bars.length < 20 then .ok (.reject .insufficientData)
    else
      match row.date with
      | .error e => .error e
      | .ok signalDate =>
        match locate_trigger bars signalDate with
        | .error e => .ok (.reject (.dateError e))
        | .ok .outdated => .ok (.reject .dataOutdated)
        | .ok (.found b) => gates row b

/-! ### Resilient Data Fetcher (`smart_api_client.fetch_historical_data`)

The upstream call `getCandleData` is abstracted as an oracle indexed by the
attempt number; the symbol table obtained by a re-download is abstracted as
a second resolution map (`_download_scrip_master` followed by
`load_scrip_master` replaces the in-memory table; the freshly written file
is younger than 24h, so the reload performs no second download).  Network
success of the download itself and row coercion are modelled at the
boundary, as already-typed rows. -/

/-- A raw candle row of a successful upstream response, post the
`astype` coercions (OHLC to float, volume to int). -/
structure RawBar where
  date : Int
  openPrice : ℚ
  highPrice : ℚ
  lowPrice : ℚ
  closePrice : ℚ
  volume : Int
  deriving Repr, DecidableEq

/-- An upstream response object: `status`, `data`, and the optional
`message`/`errorcode` keys read via `.get`. -/
structure ApiResp where
  status : Bool
  data : List RawBar
  message : Option String
  errorcode : Option String
  deriving Repr, DecidableEq

/-- Outcome of one `getCandleData` call: a response object, the literal
`None`, or a raised exception. -/
inductive UpResult where
  | resp (r : ApiResp)
  | noneResp
  | exn (detail : String)
  deriving Repr, DecidableEq

/-- The error codes retried as rate limiting. -/
def rateLimitCode (ec : String) : Bool :=
  ec == "AB1004" || ec == "AB1005" || ec == "AB2001"

/-- Substring test (Python `needle in hay`). -/
def containsSub (needle : List Char) : List Char → Bool
  | [] => needle.isEmpty
  | c :: t => needle.isPrefixOf (c :: t) || containsSub needle t

/-- The invalid-identifier test: `"Invalid Token" in msg or errorcode ==
"AG8001"`. -/
def invalidTokenResp (msg ec : String) : Bool :=
  containsSub "Invalid Token".toList msg.toList || ec == "AG8001"

/-- Build the dataframe row for one raw candle row. -/
def toBar (r : RawBar) : ABar :=
  { date := .ok r.date, openPrice := r.openPrice, highPrice := r.highPrice,
    lowPrice := r.lowPrice, close := r.closePrice, volume := r.volume,
    ema9 := none, ema20 := none }

/-- Result of `fetch_historical_data`: the `(df, error_message)` pair the
function returns, plus the observable side effects the spec talks about:
the `symboltoken` sent with each issued request, the number of scrip
master downloads, and the number of re-logins. -/
structure FetchRes where
  df : Option (List ABar)
  err : Option String
  tokensUsed : List (Option Nat)
  downloads : Nat
  logins : Nat
  deriving Repr, DecidableEq

/-- Prepend one issued request (with `dl` scrip master downloads and `lg`
re-logins performed before retrying) to the observables of the rest of
the loop. -/
def consRes (tok : Option Nat) (dl lg : Nat) (rest : FetchRes) : FetchRes :=
  { df := rest.df, err := rest.err, tokensUsed := tok :: rest.tokensUsed,
    downloads := dl + rest.downloads, logins := lg + rest.logins }

/-- The retry loop `for attempt in range(5)` of `fetch_historical_data`.
`fuel` is the number of remaining iterations; the loop falls through to
`Max Retries Exceeded` when it is exhausted. -/
def fetchLoop (oracle : Nat → UpResult) (rmap : String → Option Nat)
    (symbol : String) : Nat → Nat → Option Nat → FetchRes
  | _, 0, _ =>
    { df := none, err := some "Max Retries Exceeded", tokensUsed := [],
      downloads := 0, logins := 0 }
  | attempt, fuel + 1, tok =>
    match oracle attempt with
    | .noneResp =>
      { df := none, err := some "API returned None", tokensUsed := [tok],
        downloads := 0, logins := 0 }
    | .resp r =>
      if r.status && !r.data.isEmpty then
        { df := some (r.data.map toBar), err := none, tokensUsed := [tok],
          downloads := 0, logins := 0 }
      else if rateLimitCode (r.errorcode.getD "") then
        consRes tok 0 (if attempt == 2 then 1 else 0)
          (fetchLoop oracle rmap symbol (attempt + 1) fuel tok)
      else if invalidTokenResp (r.message.getD "Unknown API Error")
          (r.errorcode.getD "") then
        consRes tok 1 0
          (fetchLoop oracle rmap symbol (attempt + 1) fuel (rmap symbol))
      else
        { df := none,
          err := some ("API Error: " ++ r.message.getD "Unknown API Error"
            ++ " (" ++ r.errorcode.getD "" ++ ")"),
          tokensUsed := [tok], downloads := 0, logins := 0 }
    | .exn e =>
      if attempt == 4 then
        { df := none, err := some ("Exception: " ++ e), tokensUsed := [tok],
          downloads := 0, logins := 0 }
      else
        consRes tok 0 0 (fetchLoop oracle rmap symbol (attempt + 1) fuel tok)

/-- Model of `fetch_historical_data(symbol, ...)`: resolve the token from
the current map (a missing token is terminal, no request issued), then
run the bounded retry loop. -/
def fetch_historical_data (oracle : Nat → UpResult)
    (curMap rmap : String → Option Nat) (symbol : String) : FetchRes :=
  match curMap symbol with
  | none =>
    { df := none, err := some ("Token Not Found for " ++ symbol),
      tokensUsed := [], downloads := 0, logins := 0 }
  | some t => fetchLoop oracle rmap symbol 0 5 (some t)

/-! ### Batch Orchestrators (`main.py run_backtest.event_generator` and
the `app.py` loop) -/

/-- The outcome of the per-candidate pipeline body (everything inside the
per-candidate `try`), when it does not raise. -/
inductive StepRes where
  | valid (v : Verdict)
  | invalid (v : Verdict)
  | noData (msg : String)
  deriving Repr, DecidableEq

/-- A record appended to the rejected accumulator. -/
inductive RejRec where
  | fromVerdict (symbol : String) (v : Verdict)
  | noData (symbol : String) (msg : String)
  | error (symbol : String) (detail : String)
  deriving Repr, DecidableEq

/-- The per-candidate body shared by both loops: parse the row date
(`strptime`, may raise), fetch, annotate, validate (may raise).  A fetch
returning no dataframe is recorded as `No Data (...)` without invoking
the validator. -/
def candidateStep (fetch : String → FetchRes) (symbol : String)
    (row : Row) : Except String StepRes :=
  match row.date with
  | .error e => .error e
  | .ok _ =>
    let fr := fetch symbol
    match fr.df with
    | some df =>
      match validate_setup row (calculate_indicators (some df)) with
      | .error e => .error e
      | .ok (.accept d) => .ok (.valid (.accept d))
      | .ok (.reject r) => .ok (.invalid (.reject r))
    | none =>
      .ok (.noData ("No Data (" ++ fr.err.getD "None" ++ ")"))

/-- The streaming orchestrator loop of `main.py`: the per-candidate `try`
catches any exception and records an `Error: ...` rejection; a validator
rejection is appended to the rejected accumulator twice (lines 118-119). -/
def mainLoop (step : String × Row → Except String StepRes) :
    List (String × Row) → List (String × Verdict) × List RejRec
  | [] => ([], [])
  | c :: cs =>
    let rest := mainLoop step cs
    match step c with
    | .error e => (rest.1, .error c.1 e :: rest.2)
    | .ok (.valid v) => ((c.1, v) :: rest.1, rest.2)
    | .ok (.invalid v) =>
      (rest.1, .fromVerdict c.1 v :: .fromVerdict c.1 v :: rest.2)
    | .ok (.noData m) => (rest.1, .noData c.1 m :: rest.2)

/-- The dashboard loop of `app.py`: no per-candidate exception handler,
so a raised exception propagates and aborts the whole batch; a validator
rejection is appended once. -/
def appLoop (step : String × Row → Except String StepRes) :
    List (String × Row) →
      Except String (List (String × Verdict) × List RejRec)
  | [] => .ok ([], [])
  | c :: cs =>
    match step c with
    | .error e => .error e
    | .ok sr =>
      match appLoop step cs with
      | .error e => .error e
      | .ok rest =>
        match sr with
        | .valid v => .ok ((c.1, v) :: rest.1, rest.2)
        | .invalid v => .ok (rest.1, .fromVerdict c.1 v :: rest.2)
        | .noData m => .ok (rest.1, .noData c.1 m :: rest.2)

/-! ### Concrete inputs used by the witnesses -/

/-- Twenty flat bars, dates 0..19, close 100. -/
def flatBars : List ABar := (List.range 20).map (fun i =>
  { date := .ok i, openPrice := 100, highPrice := 100, lowPrice := 100,
    close := 100, volume := 0, ema9 := none, ema20 := none })

/-- The flat series after indicator annotation. -/
def flatAnnotated : List ABar := (calculate_indicators (some flatBars)).getD []

/-- The flat series' last bar after annotation. -/
def flatLast : ABar :=
  { date := .ok 19, openPrice := 100, highPrice := 100, lowPrice := 100,
    close := 100, volume := 0, ema9 := some 100, ema20 := some 100 }

/-- A demo signal row whose date matches the flat series' last bar. -/
def demoRow : Row :=
  { date := .ok 19, is_stage2 := true, ltp := 100, stop_loss := none,
    next_target := none, close := none, is_mtf := none, note := none }

/-- A demo signal row dated 81 days past the flat series' last bar. -/
def lateRow : Row := { demoRow with date := .ok 100 }

/-- A fetch stub returning the flat series. -/
def flatFetch : String → FetchRes := fun _ =>
  { df := some flatBars, err := none, tokensUsed := [], downloads := 0,
    logins := 0 }

/-! ### Claim theorems -/

/-- C9: for every series with fewer than 20 bars (including a missing or
empty series), `calculate_indicators` returns its input unchanged and
`validate_setup` rejects the candidate with `Insufficient Data`. -/
theorem c9_insufficient_data (row : Row) (df : Option (List ABar))
    (h : (df.getD []).length < 20) :
    calculate_indicators df = df ∧
      validate_setup row df = .ok (.reject .insufficientData) := by
  cases df with
  | none => exact ⟨rfl, rfl⟩
  | some bars =>
    simp only [Option.getD_some] at h
    exact ⟨by simp [calculate_indicators, h], by simp [validate_setup, h]⟩

theorem c9_witness :
    calculate_indicators (some []) = some ([] : List ABar) ∧
      validate_setup demoRow (some []) = .ok (.reject .insufficientData) :=
  c9_insufficient_data demoRow (some []) (by decide)

/-- C2 (code bug): in the streaming orchestrator of `main.py`, a candidate
whose validation is rejected contributes its rejection record twice to the
rejected accumulator (the append on lines 118-119 is duplicated), so a
processed candidate does not always yield exactly one outcome record. -/
theorem c2_double_rejection :
    mainLoop (fun c => candidateStep flatFetch c.1 c.2) [("X", demoRow)] =
      ([], [.fromVerdict "X" (.reject .emaCrossBelow),
            .fromVerdict "X" (.reject .emaCrossBelow)]) := by
  with_unfolding_all decide

/-- The spread between the two EMAs, in percent. -/
def spreadPct (e9 e20 : ℚ) : ℚ := |e9 - e20| / e20 * 100

/-- C6: the rule gates are evaluated in the fixed order (a) fastEMA >
slowEMA, (b) close above both EMAs, (c) close above fastEMA, (d) spread
bounds, (e) isStage2, and the validator returns at the first failing
gate.  In particular the first conjunct makes no assumption on the
spread or on isStage2: a candidate failing gate (a) and gate (d) is
rejected `EmaCrossBelow` only.  (Gate (c) can never be the first failure
because gate (b) subsumes it.) -/
theorem c6_gate_order (row : Row) (bars : List ABar) (sd : Int) (b : ABar)
    (e9 e20 : ℚ)
    (hlen : ¬ bars.length < 20) (hd : row.date = .ok sd)
    (hloc : locate_trigger bars sd = .ok (.found b))
    (h9 : b.ema9 = some e9) (h20 : b.ema20 = some e20) :
    (¬ e9 > e20 →
      validate_setup row (some bars) = .ok (.reject .emaCrossBelow)) ∧
    (e9 > e20 → ¬ (b.close > e9 ∧ b.close > e20) →
      validate_setup row (some bars) = .ok (.reject .priceBelowEmas)) ∧
    (e9 > e20 → b.close > e9 ∧ b.close > e20 →
      spreadPct e9 e20 < 3 / 10 →
      validate_setup row (some bars) =
        .ok (.reject (.tooSqueezed (spreadPct e9 e20)))) ∧
    (e9 > e20 → b.close > e9 ∧ b.close > e20 →
      ¬ spreadPct e9 e20 < 3 / 10 → spreadPct e9 e20 > 12 / 10 →
      validate_setup row (some bars) =
        .ok (.reject (.overextended (spreadPct e9 e20)))) ∧
    (e9 > e20 → b.close > e9 ∧ b.close > e20 →
      ¬ spreadPct e9 e20 < 3 / 10 → ¬ spreadPct e9 e20 > 12 / 10 →
      ¬ row.is_stage2 →
      validate_setup row (some bars) = .ok (.reject .notStage2)) ∧
    (e9 > e20 → b.close > e9 ∧ b.close > e20 →
      ¬ spreadPct e9 e20 < 3 / 10 → ¬ spreadPct e9 e20 > 12 / 10 →
      row.is_stage2 →
      ∃ d, validate_setup row (some bars) = .ok (.accept d)) := by
  have hv : validate_setup row (some bars) = gates row b := by
    simp [validate_setup, hlen, hd, hloc]
  refine ⟨?_, ?_, ?_, ?_, ?_, ?_⟩
  · intro ha
    simp [hv, gates, h9, h20, ha]
  · intro ha hb
    simp [hv, gates, h9, h20, ha, hb]
  · intro ha hb hs
    obtain ⟨hb1, hb2⟩ := hb
    simp [hv, gates, h9, h20, ha, hb1, hb2, spreadPct] at hs ⊢
    simp [hs]
  · intro ha hb hs1 hs2
    obtain ⟨hb1, hb2⟩ := hb
    simp only [spreadPct] at hs1 hs2
    simp [hv, gates, h9, h20, ha, hb1, hb2, hs1, hs2, spreadPct]
  · intro ha hb hs1 hs2 hst
    obtain ⟨hb1, hb2⟩ := hb
    simp only [spreadPct] at hs1 hs2
    simp [hv, gates, h9, h20, ha, hb1, hb2, hs1, hs2, hst]
  · intro ha hb hs1 hs2 hst
    obtain ⟨hb1, hb2⟩ := hb
    simp only [spreadPct] at hs1 hs2
    refine ⟨{ stop_loss := row.stop_loss.getD 0,
              target := row.next_target.getD 0, ltp := row.ltp,
              close := row.close.getD b.close, ema_9 := e9, ema_20 := e20,
              spread_pct := spreadPct e9 e20,
              is_mtf := row.is_mtf.getD false, is_stage2 := row.is_stage2,
              note := row.note.getD "" }, ?_⟩
    simp [hv, gates, h9, h20, ha, hb1, hb2, hs1, hs2, hst, spreadPct]

theorem c6_witness :
    validate_setup demoRow (some flatAnnotated) =
      .ok (.reject .emaCrossBelow) :=
  (c6_gate_order demoRow flatAnnotated 19 flatLast 100 100
    (by with_unfolding_all decide) rfl (by with_unfolding_all decide)
    rfl rfl).1 (by norm_num)

/-- C8: when no bar matches the signal date (date-only equality), the
validator uses the series' last bar as the trigger bar if and only if
that bar's date is within 5 calendar days of the signal date, rejecting
`Data Outdated` otherwise; a date-extraction error inside this step
yields a `Date Error` rejection carrying the detail. -/
theorem c8_trigger_fallback (row : Row) (bars : List ABar) (sd : Int)
    (hlen : ¬ bars.length < 20) (hd : row.date = .ok sd) :
    (∀ e, bars.mapM (fun b => b.date) = .error e →
      validate_setup row (some bars) = .ok (.reject (.dateError e))) ∧
    (∀ dates lb ld, bars.mapM (fun b => b.date) = .ok dates →
      (∀ d ∈ dates, d ≠ sd) →
      bars.getLast? = some lb → dates.getLast? = some ld →
      ((ld - sd).natAbs > 5 →
        validate_setup row (some bars) = .ok (.reject .dataOutdated)) ∧
      (¬ (ld - sd).natAbs > 5 →
        validate_setup row (some bars) = gates row lb)) := by
  constructor
  · intro e hmap
    have hlt : locate_trigger bars sd = .error e := by
      unfold locate_trigger
      rw [hmap]
    simp [validate_setup, hlen, hd, hlt]
  · intro dates lb ld hmap hne hlb hld
    have hfind : List.find? (fun p => p.2 == sd) (bars.zip dates) = none := by
      refine List.find?_eq_none.mpr ?_
      intro p hp
      have hmem : p.2 ∈ dates := (List.of_mem_zip hp).2
      simpa using hne p.2 hmem
    constructor
    · intro hout
      have hlt : locate_trigger bars sd = .ok .outdated := by
        unfold locate_trigger
        rw [hmap]
        simp only [hfind, hlb, hld]
        rw [if_pos hout]
      simp [validate_setup, hlen, hd, hlt]
    · intro hin
      have hlt : locate_trigger bars sd = .ok (.found lb) := by
        unfold locate_trigger
        rw [hmap]
        simp only [hfind, hlb, hld]
        rw [if_neg hin]
      simp [validate_setup, hlen, hd, hlt]

theorem c8_witness :
    validate_setup lateRow (some flatAnnotated) =
      .ok (.reject .dataOutdated) := by
  have h := (c8_trigger_fallback lateRow flatAnnotated 100
    (by with_unfolding_all decide) rfl).2
    ((List.range 20).map Int.ofNat) flatLast 19
    (by with_unfolding_all decide) (by decide)
    (by with_unfolding_all decide) (by decide)
  exact h.1 (by decide)

/-- Replace the echoed `is_mtf` field of an accepted verdict; rejections
are unchanged. -/
def Verdict.withMtf (m : Bool) : Verdict → Verdict
  | .reject r => .reject r
  | .accept d => .accept { d with is_mtf := m }

/-- C10: the candidate's `is_mtf` flag never influences the verdict: for
two rows identical except in `is_mtf`, evaluated against the same series,
the verdicts agree in acceptance, reason and every other field, differing
at most in the echoed `is_mtf` pass-through field. -/
theorem c10_mtf_noninterference (row : Row) (hist : Option (List ABar))
    (m : Option Bool) :
    validate_setup { row with is_mtf := m } hist =
      Except.map (Verdict.withMtf (m.getD false))
        (validate_setup row hist) := by
  have hg : ∀ b : ABar,
      gates { row with is_mtf := m } b =
        Except.map (Verdict.withMtf (m.getD false)) (gates row b) := by
    intro b
    cases h9 : b.ema9 with
    | none => cases h20 : b.ema20 <;> simp [gates, h9, h20, Except.map]
    | some e9 =>
      cases h20 : b.ema20 with
      | none => simp [gates, h9, h20, Except.map]
      | some e20 =>
        simp only [gates, h9, h20]
        split_ifs <;> simp [Except.map, Verdict.withMtf]
  cases hist with
  | none => rfl
  | some bars =>
    unfold validate_setup
    by_cases hl : bars.length < 20
    · simp [hl, Except.map, Verdict.withMtf]
    · simp only [hl, if_false]
      cases hrd : row.date with
      | error e => simp [Except.map]
      | ok sd =>
        cases hlt : locate_trigger bars sd with
        | error e => simp [hlt, Except.map, Verdict.withMtf]
        | ok tr =>
          cases tr with
          | outdated => simp [hlt, Except.map, Verdict.withMtf]
          | found b => simpa [hlt, hrd] using hg b

theorem c10_witness :
    validate_setup { demoRow with is_mtf := some true }
        (some flatAnnotated) =
      Except.map (Verdict.withMtf true)
        (validate_setup demoRow (some flatAnnotated)) :=
  c10_mtf_noninterference demoRow (some flatAnnotated) (some true)

theorem emaFrom_length (alpha : ℚ) (xs : List ℚ) :
    ∀ prev : ℚ, (emaFrom alpha prev xs).length = xs.length := by
  induction xs with
  | nil => intro prev; rfl
  | cons x t ih => intro prev; simp [emaFrom, ih]

theorem ema_length (alpha : ℚ) (xs : List ℚ) :
    (ema alpha xs).length = xs.length := by
  cases xs with
  | nil => rfl
  | cons x t => simp [ema, emaFrom_length]

theorem emaFrom_zero (alpha prev : ℚ) (xs : List ℚ) :
    (emaFrom alpha prev xs)[0]? =
      (xs[0]?).map (fun x => emaStep alpha prev x) := by
  cases xs <;> simp [emaFrom]

theorem emaFrom_recur (alpha : ℚ) (xs : List ℚ) :
    ∀ (prev : ℚ) (i : Nat) (x y : ℚ), xs[i + 1]? = some x →
      (emaFrom alpha prev xs)[i]? = some y →
      (emaFrom alpha prev xs)[i + 1]? = some (emaStep alpha y x) := by
  induction xs with
  | nil => intro prev i x y hx _; simp at hx
  | cons a t ih =>
    intro prev i x y hx hy
    cases i with
    | zero =>
      simp [emaFrom] at hy hx ⊢
      rw [emaFrom_zero, hx]
      simp [hy]
    | succ j =>
      simp [emaFrom] at hy hx ⊢
      exact ih (emaStep alpha prev a) j x y hx hy

theorem ema_zero (alpha : ℚ) (xs : List ℚ) : (ema alpha xs)[0]? = xs[0]? := by
  cases xs <;> simp [ema]

theorem ema_recur (alpha : ℚ) (xs : List ℚ) (i : Nat) (x y : ℚ)
    (hx : xs[i + 1]? = some x) (hy : (ema alpha xs)[i]? = some y) :
    (ema alpha xs)[i + 1]? = some (emaStep alpha y x) := by
  cases xs with
  | nil => simp at hx
  | cons a t =>
    cases i with
    | zero =>
      simp [ema] at hy hx ⊢
      rw [emaFrom_zero, hx]
      simp [hy]
    | succ j =>
      simp [ema] at hy hx ⊢
      exact emaFrom_recur alpha t a j x y hx hy

theorem getElem?_zipWith3 {α β γ : Type} (f : α → β → γ) :
    ∀ (as : List α) (bs : List β) (i : Nat),
      (List.zipWith f as bs)[i]? =
        match as[i]?, bs[i]? with
        | some a, some b => some (f a b)
        | _, _ => none := by
  intro as
  induction as with
  | nil => intro bs i; cases bs <;> cases i <;> simp
  | cons a t ih =>
    intro bs i
    cases bs with
    | nil => cases i <;> simp
    | cons b u =>
      cases i with
      | zero => simp
      | succ j => simpa using ih u j

theorem annotated_getElem (bars : List ABar) (l1 l2 : List ℚ) (i : Nat) :
    (List.zipWith (fun b p => annotateBar b p.1 p.2) bars (l1.zip l2))[i]? =
      match bars[i]?, l1[i]?, l2[i]? with
      | some b, some p, some q => some (annotateBar b p q)
      | _, _, _ => none := by
  rw [getElem?_zipWith3]
  have hz : l1.zip l2 = List.zipWith Prod.mk l1 l2 := rfl
  rw [hz, getElem?_zipWith3]
  cases bars[i]? <;> cases l1[i]? <;> cases l2[i]? <;> rfl

/-- C7: for every series of at least 20 bars, `calculate_indicators`
computes each of the two indicators as the unadjusted exponential moving
average of the close prices, in ascending bar order: `value[0] =
close[0]` and `value[i] = alpha*close[i] + (1-alpha)*value[i-1]` with
`alpha = 2/(span+1)` for span 9 (`EMA_9`) and span 20 (`EMA_20`). -/
theorem c7_ema_recurrence (bars : List ABar) (h : 20 ≤ bars.length) :
    ∃ out, calculate_indicators (some bars) = some out ∧
      out.length = bars.length ∧
      (∀ b0, bars[0]? = some b0 → ∃ o0, out[0]? = some o0 ∧
        o0.ema9 = some b0.close ∧ o0.ema20 = some b0.close) ∧
      (∀ i oi oi1 bi1, out[i]? = some oi → out[i + 1]? = some oi1 →
        bars[i + 1]? = some bi1 →
        (∀ y, oi.ema9 = some y → oi1.ema9 =
          some (2 / (9 + 1) * bi1.close + (1 - 2 / (9 + 1)) * y)) ∧
        (∀ y, oi.ema20 = some y → oi1.ema20 =
          some (2 / (20 + 1) * bi1.close + (1 - 2 / (20 + 1)) * y))) := by
  refine ⟨List.zipWith (fun b p => annotateBar b p.1 p.2) bars
      ((ema alphaFast (bars.map (fun b => b.close))).zip
        (ema alphaSlow (bars.map (fun b => b.close)))), ?_, ?_, ?_, ?_⟩
  · simp only [calculate_indicators]
    rw [if_neg (by omega)]
  · simp [List.length_zipWith, List.length_zip, ema_length]
  · intro b0 hb0
    have hcl0 : (bars.map (fun b => b.close))[0]? = some b0.close := by
      simp [hb0]
    have he9 : (ema alphaFast (bars.map (fun b => b.close)))[0]? =
        some b0.close := by rw [ema_zero]; exact hcl0
    have he20 : (ema alphaSlow (bars.map (fun b => b.close)))[0]? =
        some b0.close := by rw [ema_zero]; exact hcl0
    refine ⟨annotateBar b0 b0.close b0.close, ?_,
      by simp [annotateBar], by simp [annotateBar]⟩
    rw [annotated_getElem, hb0, he9, he20]
  · intro i oi oi1 bi1 hoi hoi1 hbi1
    rw [annotated_getElem] at hoi hoi1
    cases hb : bars[i]? with
    | none => rw [hb] at hoi; simp at hoi
    | some b =>
      rw [hb] at hoi
      cases he9i : (ema alphaFast (bars.map (fun b => b.close)))[i]? with
      | none => rw [he9i] at hoi; simp at hoi
      | some p =>
        rw [he9i] at hoi
        cases he20i : (ema alphaSlow (bars.map (fun b => b.close)))[i]? with
        | none => rw [he20i] at hoi; simp at hoi
        | some q =>
          rw [he20i] at hoi
          simp only [Option.some.injEq] at hoi
          have hcl1 : (bars.map (fun b => b.close))[i + 1]? =
              some bi1.close := by simp [hbi1]
          have he9s := ema_recur alphaFast (bars.map (fun b => b.close))
            i bi1.close p hcl1 he9i
          have he20s := ema_recur alphaSlow (bars.map (fun b => b.close))
            i bi1.close q hcl1 he20i
          rw [hbi1, he9s, he20s] at hoi1
          simp only [Option.some.injEq] at hoi1
          subst hoi
          subst hoi1
          constructor
          · intro y hy
            simp [annotateBar] at hy
            simp [annotateBar, emaStep, alphaFast, hy]
          · intro y hy
            simp [annotateBar] at hy
            simp [annotateBar, emaStep, alphaSlow, hy]

theorem c7_witness :
    ∃ out, calculate_indicators (some flatBars) = some out ∧
      out.length = flatBars.length :=
  (c7_ema_recurrence flatBars (by with_unfolding_all decide)).elim
    (fun out ho => ⟨out, ho.1, ho.2.1⟩)

/-- The upstream outcomes after which the retry loop can continue: a
raised exception, or a non-success response classified as rate limited or
invalid identifier.  Everything else is terminal. -/
def wasRetried : UpResult → Bool
  | .exn _ => true
  | .noneResp => false
  | .resp r =>
    !(r.status && !r.data.isEmpty) &&
      (rateLimitCode (r.errorcode.getD "") ||
        invalidTokenResp (r.message.getD "Unknown API Error")
          (r.errorcode.getD ""))

/-- An upstream outcome that is a rate-limited (non-success) response. -/
def isRateLimitedResp : UpResult → Bool
  | .resp r =>
    !(r.status && !r.data.isEmpty) && rateLimitCode (r.errorcode.getD "")
  | _ => false

theorem fetchLoop_tokens_le (oracle : Nat → UpResult)
    (rmap : String → Option Nat) (symbol : String) :
    ∀ (fuel attempt : Nat) (tok : Option Nat),
      (fetchLoop oracle rmap symbol attempt fuel tok).tokensUsed.length ≤
        fuel := by
  intro fuel
  induction fuel with
  | zero => intro attempt tok; simp [fetchLoop]
  | succ n ih =>
    intro attempt tok
    cases ho : oracle attempt with
    | noneResp => simp [fetchLoop, ho]
    | resp r =>
      simp only [fetchLoop, ho]
      split
      · simp
      · split
        · simpa [consRes] using Nat.succ_le_succ (ih (attempt + 1) tok)
        · split
          · simpa [consRes] using
              Nat.succ_le_succ (ih (attempt + 1) (rmap symbol))
          · simp
    | exn e =>
      simp only [fetchLoop, ho]
      split
      · simp
      · simpa [consRes] using Nat.succ_le_succ (ih (attempt + 1) tok)

theorem fetchLoop_retried (oracle : Nat → UpResult)
    (rmap : String → Option Nat) (symbol : String) :
    ∀ (fuel attempt : Nat) (tok : Option Nat) (i : Nat),
      i + 1 <
        (fetchLoop oracle rmap symbol attempt fuel tok).tokensUsed.length →
      wasRetried (oracle (attempt + i)) = true := by
  intro fuel
  induction fuel with
  | zero => intro attempt tok i hi; simp [fetchLoop] at hi
  | succ n ih =>
    intro attempt tok i hi
    simp only [fetchLoop] at hi
    cases ho : oracle attempt with
    | noneResp => rw [ho] at hi; simp at hi
    | resp r =>
      rw [ho] at hi
      by_cases hs : (r.status && !r.data.isEmpty) = true
      · simp [hs] at hi
      · simp only [Bool.not_eq_true] at hs
        simp only [hs, Bool.false_eq_true, if_false] at hi
        by_cases hrl : rateLimitCode (r.errorcode.getD "") = true
        · simp only [hrl, if_true, consRes, List.length_cons] at hi
          cases i with
          | zero =>
            simp [ho, wasRetried, hs, hrl]
          | succ j =>
            have hj : j + 1 <
                (fetchLoop oracle rmap symbol (attempt + 1) n
                  tok).tokensUsed.length := by omega
            have := ih (attempt + 1) tok j hj
            have harith : attempt + 1 + j = attempt + (j + 1) := by omega
            rwa [harith] at this
        · simp only [Bool.not_eq_true] at hrl
          simp only [hrl, Bool.false_eq_true, if_false] at hi
          by_cases hit : invalidTokenResp (r.message.getD "Unknown API Error")
              (r.errorcode.getD "") = true
          · simp only [hit, if_true, consRes, List.length_cons] at hi
            cases i with
            | zero =>
              simp [ho, wasRetried, hs, hrl, hit]
            | succ j =>
              have hj : j + 1 <
                  (fetchLoop oracle rmap symbol (attempt + 1) n
                    (rmap symbol)).tokensUsed.length := by omega
              have := ih (attempt + 1) (rmap symbol) j hj
              have harith : attempt + 1 + j = attempt + (j + 1) := by omega
              rwa [harith] at this
          · simp only [Bool.not_eq_true] at hit
            simp [hit] at hi
    | exn e =>
      rw [ho] at hi
      by_cases h4 : (attempt == 4) = true
      · simp [h4] at hi
      · simp only [Bool.not_eq_true] at h4
        simp only [h4, Bool.false_eq_true, if_false, consRes,
          List.length_cons] at hi
        cases i with
        | zero => simp [ho, wasRetried]
        | succ j =>
          have hj : j + 1 <
              (fetchLoop oracle rmap symbol (attempt + 1) n
                tok).tokensUsed.length := by omega
          have := ih (attempt + 1) tok j hj
          have harith : attempt + 1 + j = attempt + (j + 1) := by omega
          rwa [harith] at this

theorem fetchLoop_allRL (oracle : Nat → UpResult)
    (rmap : String → Option Nat) (symbol : String)
    (h : ∀ n, isRateLimitedResp (oracle n) = true) :
    ∀ (fuel attempt : Nat) (tok : Option Nat),
      (fetchLoop oracle rmap symbol attempt fuel tok).df = none ∧
      (fetchLoop oracle rmap symbol attempt fuel tok).err =
        some "Max Retries Exceeded" ∧
      (fetchLoop oracle rmap symbol attempt fuel tok).tokensUsed.length =
        fuel := by
  intro fuel
  induction fuel with
  | zero => intro attempt tok; exact ⟨rfl, rfl, rfl⟩
  | succ n ih =>
    intro attempt tok
    have hn := h attempt
    simp only [fetchLoop]
    cases ho : oracle attempt with
    | noneResp => rw [ho] at hn; simp [isRateLimitedResp] at hn
    | exn e => rw [ho] at hn; simp [isRateLimitedResp] at hn
    | resp r =>
      rw [ho] at hn
      simp only [isRateLimitedResp, Bool.and_eq_true,
        Bool.not_eq_true'] at hn
      obtain ⟨h1, h2⟩ := hn
      simp [h1, h2, consRes, (ih (attempt + 1) tok).1,
        (ih (attempt + 1) tok).2.1, (ih (attempt + 1) tok).2.2]

/-- C3: if every upstream response is rate limited, the fetcher issues
exactly 5 requests and returns the terminal `Max Retries Exceeded`
failure; in general it never issues a sixth request, and every response
that was followed by another request was classified as rate limited,
invalid identifier, or a raised (transport) exception. -/
theorem c3_retry_bound :
    (∀ (oracle : Nat → UpResult) (curMap rmap : String → Option Nat)
        (symbol : String) (t : Nat), curMap symbol = some t →
      (∀ n, isRateLimitedResp (oracle n) = true) →
      (fetch_historical_data oracle curMap rmap symbol).df = none ∧
      (fetch_historical_data oracle curMap rmap symbol).err =
        some "Max Retries Exceeded" ∧
      (fetch_historical_data oracle curMap rmap
        symbol).tokensUsed.length = 5) ∧
    (∀ (oracle : Nat → UpResult) (curMap rmap : String → Option Nat)
        (symbol : String),
      (fetch_historical_data oracle curMap rmap
        symbol).tokensUsed.length ≤ 5 ∧
      ∀ i, i + 1 < (fetch_historical_data oracle curMap rmap
          symbol).tokensUsed.length →
        wasRetried (oracle i) = true) := by
  constructor
  · intro oracle curMap rmap symbol t hmap hrl
    unfold fetch_historical_data
    rw [hmap]
    exact fetchLoop_allRL oracle rmap symbol hrl 5 0 (some t)
  · intro oracle curMap rmap symbol
    unfold fetch_historical_data
    cases hmap : curMap symbol with
    | none => simp
    | some t =>
      refine ⟨fetchLoop_tokens_le oracle rmap symbol 5 0 (some t), ?_⟩
      intro i hi
      have := fetchLoop_retried oracle rmap symbol 5 0 (some t) i hi
      simpa using this

/-- A constant rate-limited upstream. -/
def rlOracle : Nat → UpResult := fun _ =>
  .resp { status := false, data := [], message := none,
          errorcode := some "AB1004" }

/-- A symbol table resolving everything to token 7. -/
def oneMap : String → Option Nat := fun _ => some 7

theorem c3_witness :
    (fetch_historical_data rlOracle oneMap oneMap "RELIANCE").err =
        some "Max Retries Exceeded" ∧
      (fetch_historical_data rlOracle oneMap oneMap
        "RELIANCE").tokensUsed.length = 5 := by
  have h := c3_retry_bound.1 rlOracle oneMap oneMap "RELIANCE" 7 rfl
    (fun n => rfl)
  exact ⟨h.2.1, h.2.2⟩

theorem fetchLoop_invalid_step (oracle : Nat → UpResult)
    (rmap : String → Option Nat) (symbol : String)
    (attempt fuel : Nat) (tok : Option Nat) (r : ApiResp)
    (ho : oracle attempt = .resp r)
    (hs : (r.status && !r.data.isEmpty) = false)
    (hrl : rateLimitCode (r.errorcode.getD "") = false)
    (hit : invalidTokenResp (r.message.getD "Unknown API Error")
      (r.errorcode.getD "") = true) :
    fetchLoop oracle rmap symbol attempt (fuel + 1) tok =
      consRes tok 1 0
        (fetchLoop oracle rmap symbol (attempt + 1) fuel (rmap symbol)) := by
  simp only [fetchLoop]
  rw [ho]
  simp [hs, hrl, hit]

theorem fetchLoop_success_step (oracle : Nat → UpResult)
    (rmap : String → Option Nat) (symbol : String)
    (attempt fuel : Nat) (tok : Option Nat) (r : ApiResp)
    (ho : oracle attempt = .resp r)
    (hs : (r.status && !r.data.isEmpty) = true) :
    fetchLoop oracle rmap symbol attempt (fuel + 1) tok =
      { df := some (r.data.map toBar), err := none, tokensUsed := [tok],
        downloads := 0, logins := 0 } := by
  simp only [fetchLoop]
  rw [ho]
  simp [hs]

/-- C4: if the upstream returns an invalid-identifier failure on the
first attempt and success on the second, the fetcher returns the parsed
series, issues the second request with the identifier re-resolved from
the refreshed symbol table, and re-downloads the symbol table exactly
once. -/
theorem c4_self_healing (oracle : Nat → UpResult)
    (curMap rmap : String → Option Nat) (symbol : String) (t0 : Nat)
    (r0 : ApiResp) (rows : List RawBar)
    (hmap : curMap symbol = some t0)
    (h0 : oracle 0 = .resp r0)
    (h0s : (r0.status && !r0.data.isEmpty) = false)
    (h0rl : rateLimitCode (r0.errorcode.getD "") = false)
    (h0it : invalidTokenResp (r0.message.getD "Unknown API Error")
      (r0.errorcode.getD "") = true)
    (h1 : oracle 1 = .resp { status := true, data := rows,
                             message := none, errorcode := none })
    (hrows : rows ≠ []) :
    fetch_historical_data oracle curMap rmap symbol =
      { df := some (rows.map toBar), err := none,
        tokensUsed := [some t0, rmap symbol], downloads := 1,
        logins := 0 } := by
  have hne : rows.isEmpty = false := by
    cases rows with
    | nil => exact absurd rfl hrows
    | cons a l => rfl
  unfold fetch_historical_data
  rw [hmap]
  show fetchLoop oracle rmap symbol 0 (4 + 1) (some t0) = _
  rw [fetchLoop_invalid_step oracle rmap symbol 0 4 (some t0) r0 h0 h0s
    h0rl h0it]
  rw [show (4 : Nat) = 3 + 1 from rfl]
  rw [fetchLoop_success_step oracle rmap symbol 1 3 (rmap symbol)
    { status := true, data := rows, message := none, errorcode := none }
    h1 (by simp [hne])]
  simp [consRes]

/-- The two-response oracle behind the C4 witness: invalid identifier
once, then success. -/
def healOracle : Nat → UpResult := fun n =>
  if n == 0 then
    .resp { status := false, data := [], message := some "Invalid Token",
            errorcode := none }
  else
    .resp { status := true,
            data := [{ date := 1, openPrice := 1, highPrice := 1,
                       lowPrice := 1, closePrice := 1, volume := 1 }],
            message := none, errorcode := none }

/-- A refreshed symbol table resolving everything to token 9. -/
def freshMap : String → Option Nat := fun _ => some 9

theorem c4_witness :
    fetch_historical_data healOracle oneMap freshMap "RELIANCE" =
      { df := some ([{ date := 1, openPrice := 1, highPrice := 1,
                       lowPrice := 1, closePrice := 1,
                       volume := 1 }].map toBar),
        err := none, tokensUsed := [some 7, freshMap "RELIANCE"],
        downloads := 1, logins := 0 } :=
  c4_self_healing healOracle oneMap freshMap "RELIANCE" 7
    { status := false, data := [], message := some "Invalid Token",
      errorcode := none }
    [{ date := 1, openPrice := 1, highPrice := 1, lowPrice := 1,
       closePrice := 1, volume := 1 }]
    rfl (by decide) (by decide) (by decide) (by decide) (by decide)
    (by decide)

theorem mainLoop_append (step : String × Row → Except String StepRes)
    (xs ys : List (String × Row)) :
    mainLoop step (xs ++ ys) =
      ((mainLoop step xs).1 ++ (mainLoop step ys).1,
       (mainLoop step xs).2 ++ (mainLoop step ys).2) := by
  induction xs with
  | nil => simp [mainLoop]
  | cons c cs ih =>
    simp only [List.cons_append, mainLoop, ih]
    cases step c with
    | error e => simp [ih]
    | ok sr => cases sr <;> simp [ih]

/-- C5 (amended): in the streaming orchestrator loop of `main.py`, an
exception raised while processing one candidate is caught, recorded once
as an `Error(<detail>)` rejection record, and the remaining candidates
are processed exactly as they otherwise would be — that candidate's
failure does not abort the batch.  (The dashboard loop of `app.py` does
not catch per-candidate exceptions; see the counterexample.) -/
theorem c5_main_loop_catches (step : String × Row → Except String StepRes)
    (pre post : List (String × Row)) (c : String × Row) (e : String)
    (hc : step c = .error e) :
    mainLoop step (pre ++ c :: post) =
      ((mainLoop step pre).1 ++ (mainLoop step post).1,
       (mainLoop step pre).2 ++
         RejRec.error c.1 e :: (mainLoop step post).2) := by
  rw [mainLoop_append]
  simp [mainLoop, hc]

/-- A per-candidate step that raises on the candidate named `BOOM` and
succeeds benignly on everything else. -/
def boomStep : String × Row → Except String StepRes := fun c =>
  if c.1 = "BOOM" then .error "division by zero"
  else .ok (.noData "No Data (None)")

/-- C5 counterexample: in the dashboard loop of `app.py` a per-candidate
exception is not caught: the batch aborts with the raised exception and
the remaining candidate yields no outcome at all. -/
theorem c5_counterexample :
    appLoop boomStep [("BOOM", demoRow), ("OK", demoRow)] =
      .error "division by zero" := by
  with_unfolding_all decide

theorem c5_witness :
    mainLoop boomStep [("BOOM", demoRow), ("OK", demoRow)] =
      ((mainLoop boomStep []).1 ++
          (mainLoop boomStep [("OK", demoRow)]).1,
       (mainLoop boomStep []).2 ++
         RejRec.error "BOOM" "division by zero" ::
           (mainLoop boomStep [("OK", demoRow)]).2) :=
  c5_main_loop_catches boomStep [] [("OK", demoRow)] ("BOOM", demoRow)
    "division by zero" (by with_unfolding_all decide)

end SwingScanner
